import Mathlib

/-!
Verification of the payroll/time-tracking backend core logic.

The Python source (FastAPI + SQLAlchemy) is embedded shallowly:
* SQLAlchemy rows become Lean structures over `ℚ` (Python floats are
  modelled as exact rationals), `Int` (dates as day numbers, datetimes as
  seconds) and `Option` for nullable columns.
* The database session becomes an explicit `DB` state (lists of rows);
  each route handler becomes a pure function `DB → ... → Except ApiError (DB × result)`.
* `round(x, 2)` becomes `round2` below (round to nearest multiple of 1/100).
* Pydantic update schemas with `exclude_unset=True` become structures of
  `Option` fields, `none` meaning the field was not supplied.  The nullable
  `clock_out` field of `TimeEntryUpdate` is `Option (Option Int)` so that an
  explicit null (`some none`) is distinguished from an absent field (`none`).
-/

/-- Rounding to 2 decimal places, modelling the `round(x, 2)` calls of the
source on the exact rational value. -/
def round2 (q : ℚ) : ℚ := ((round (q * 100) : ℤ) : ℚ) / 100

/-- Error taxonomy of the handlers (HTTP 404 / 400-conflict / 403 /
400-bad-range), plus `typeError` for a Python `TypeError` escaping a handler
as an internal server error. -/
inductive ApiError where
  | notFound
  | conflict
  | forbidden
  | invalidRange
  | typeError
deriving DecidableEq

/-- Error raised by `calculate_hours` (hitl.py line 22, a Python
`ValueError` with the message that clock out must be after clock in). -/
inductive HoursError where
  | clockOutNotAfterClockIn
deriving DecidableEq

/-- Employee row (models.py, class Employee).  Fields irrelevant to the
claims (strings, audit timestamps) are omitted; `salary` is NOT NULL,
`hourly_rate` is nullable. -/
structure Employee where
  id : Nat
  user_id : Nat
  salary : ℚ
  hourly_rate : Option ℚ := none
  employment_type : String := "full_time"
  is_active : Bool := true
deriving DecidableEq

/-- TimeEntry row (models.py, class TimeEntry).  `date` is a day number,
`clock_in` / `clock_out` are seconds, `break_duration` is minutes. -/
structure TimeEntry where
  id : Nat
  employee_id : Nat
  date : Int
  clock_in : Int
  clock_out : Option Int := none
  break_duration : Int := 0
  total_hours : Option ℚ := none
  overtime_hours : ℚ := 0
  notes : Option String := none
  status : String := "active"
deriving DecidableEq

/-- PayrollRecord row (models.py, class PayrollRecord).  Freshly inserted
rows get `id := 0` here: the store-assigned primary key plays no role in
the claims. -/
structure PayrollRecord where
  id : Nat
  employee_id : Nat
  employee_user_id : Nat
  pay_period_start : Int
  pay_period_end : Int
  gross_pay : ℚ
  tax_deductions : ℚ := 0
  other_deductions : ℚ := 0
  net_pay : ℚ
  hours_worked : ℚ := 0
  overtime_hours : ℚ := 0
  status : String := "pending"
  processed_at : Option Int := none
deriving DecidableEq

/-- Acting principal, as dereferenced by the routers
(`current_user.id`, `current_user.is_admin`). -/
structure User where
  id : Nat
  is_admin : Bool := false
deriving DecidableEq

/-- Database state: the three tables the claims touch. -/
structure DB where
  employees : List Employee
  time_entries : List TimeEntry
  payroll_records : List PayrollRecord
deriving DecidableEq

/-- Python truthiness of the nullable float `employee.hourly_rate`
(`None` and `0.0` are falsy). -/
def pyTruthy : Option ℚ → Bool
  | none => false
  | some r => decide (r ≠ 0)

/-- Effective overtime hours used by `calculate_payroll`
(processing.py line 23): when the override is zero the weekly threshold
applies, otherwise the override is taken as-is. -/
def overtimeEff (hours_worked overtime_hours : ℚ) : ℚ :=
  if overtime_hours = 0 then max 0 (hours_worked - 40) else overtime_hours

/-- Salaried gross pay (processing.py lines 30-36): weekly salary plus an
hourly-equivalent overtime supplement. -/
def salaried_gross (salary overtime : ℚ) : ℚ :=
  let weekly_salary := salary / 52
  if overtime > 0 then weekly_salary + overtime * (weekly_salary / 40) * (3 / 2)
  else weekly_salary

/-- Unrounded gross pay of `calculate_payroll` (processing.py lines 22-36). -/
def gross_raw (employee : Employee) (hours_worked overtime_hours : ℚ) : ℚ :=
  let regular_hours := min hours_worked 40
  let overtime := overtimeEff hours_worked overtime_hours
  if employee.employment_type == "hourly" && pyTruthy employee.hourly_rate then
    let rate := employee.hourly_rate.getD 0
    regular_hours * rate + overtime * rate * (3 / 2)
  else
    salaried_gross employee.salary overtime

/-- Result dict of `calculate_payroll` (processing.py lines 47-54). -/
structure PayBreakdown where
  gross_pay : ℚ
  tax_deductions : ℚ
  other_deductions : ℚ
  net_pay : ℚ
  hours_worked : ℚ
  overtime_hours : ℚ
deriving DecidableEq

/-- Payroll calculator (processing.py lines 20-54).  Deductions and net pay
are computed from the unrounded gross; each monetary output is rounded only
in the returned dict. -/
def calculate_payroll (employee : Employee) (hours_worked : ℚ)
    (overtime_hours : ℚ := 0) : PayBreakdown :=
  let g := gross_raw employee hours_worked overtime_hours
  let tax_deductions := g * (1 / 4)
  let other_deductions := g * (1 / 20)
  let net_pay := g - tax_deductions - other_deductions
  { gross_pay := round2 g
    tax_deductions := round2 tax_deductions
    other_deductions := round2 other_deductions
    net_pay := round2 net_pay
    hours_worked := hours_worked
    overtime_hours := overtimeEff hours_worked overtime_hours }

/-- Hours computation (hitl.py lines 19-33): clock times in seconds, break
in minutes; returns (total_hours, overtime_hours) rounded to 2 decimals. -/
def calculate_hours (clock_in clock_out : Int) (break_duration : Int := 0) :
    Except HoursError (ℚ × ℚ) :=
  if clock_out ≤ clock_in then
    .error .clockOutNotAfterClockIn
  else
    let total_minutes : ℚ := ((clock_out : ℚ) - (clock_in : ℚ)) / 60 - (break_duration : ℚ)
    let total_hours := total_minutes / 60
    let overtime_hours := max 0 (total_hours - 8)
    .ok (round2 total_hours, round2 overtime_hours)

/-- Accepted values of the `EmploymentType` enum (schemas.py lines 10-13). -/
def employmentTypeValues : List String := ["full_time", "part_time", "contract"]

/-- Pydantic validation of the `employment_type` field of an employee
payload against the `EmploymentType` enum. -/
def parseEmploymentType (s : String) : Option String :=
  if s ∈ employmentTypeValues then some s else none

/-- Outcome of `clock_in` (hitl.py lines 36-75).  The handler looks up the
employee profile of the acting user, rejects a second active entry for the
same (employee, date), and then evaluates
`TimeEntry(**time_entry.dict(), employee_id=employee.id)`.  Since
`TimeEntryCreate` itself declares `employee_id` (schemas.py line 176), the
keyword `employee_id` is passed twice and Python raises `TypeError` before
anything is persisted; the embedding returns `ApiError.typeError` there. -/
structure TimeEntryCreate where
  employee_id : Nat
  date : Int
  clock_in : Int
  clock_out : Option Int := none
  break_duration : Int := 0
  notes : Option String := none
  status : String := "active"
deriving DecidableEq

/-- Clock-in handler (hitl.py lines 36-75). -/
def clock_in (db : DB) (current_user : User) (time_entry : TimeEntryCreate) :
    Except ApiError (DB × TimeEntry) :=
  match db.employees.find? (fun e => e.user_id == current_user.id) with
  | none => .error .notFound
  | some employee =>
    if db.time_entries.any (fun t =>
        t.employee_id == employee.id && t.date == time_entry.date &&
        t.status == "active") then
      .error .conflict
    else
      .error .typeError

/-- Partial-update payload for a time entry (schemas.py lines 179-183) with
`exclude_unset` semantics: `none` means the field was not supplied; for the
nullable `clock_out`, `some none` means an explicit null. -/
structure TimeEntryUpdate where
  clock_out : Option (Option Int) := none
  break_duration : Option Int := none
  notes : Option String := none
  status : Option String := none
deriving DecidableEq

/-- Permission step of `update_time_entry` (hitl.py lines 239-253): admins
pass; a non-admin must own the entry and may not set status to approved. -/
def update_entry_permission (db : DB) (current_user : User) (entry : TimeEntry)
    (entry_update : TimeEntryUpdate) : Except ApiError Unit :=
  if current_user.is_admin then .ok ()
  else
    match db.employees.find? (fun e => e.user_id == current_user.id) with
    | none => .error .forbidden
    | some employee =>
      if entry.employee_id ≠ employee.id then .error .forbidden
      else if entry_update.status = some ("approved") then .error .forbidden
      else .ok ()

/-- Recomputation step of `update_time_entry` (hitl.py lines 258-274): when
the update supplies clock_out or break_duration, and the resulting clock_out
is non-null, run `calculate_hours` on the resolved values; a `ValueError`
becomes a 400 response. -/
def recompute_hours (entry : TimeEntry) (entry_update : TimeEntryUpdate) :
    Except ApiError (Option (ℚ × ℚ)) :=
  if entry_update.clock_out.isSome || entry_update.break_duration.isSome then
    match entry_update.clock_out.getD entry.clock_out with
    | some co =>
      match calculate_hours entry.clock_in co
          (entry_update.break_duration.getD entry.break_duration) with
      | .error _ => .error .invalidRange
      | .ok hs => .ok (some hs)
    | none => .ok none
  else .ok none

/-- Applied fields of a time-entry update (the setattr loop of hitl.py
lines 276-277 together with the recomputed `total_hours` and
`overtime_hours` entries of `update_data`). -/
def applied_entry (entry : TimeEntry) (entry_update : TimeEntryUpdate)
    (hrs : Option (ℚ × ℚ)) : TimeEntry :=
  { entry with
    clock_out := entry_update.clock_out.getD entry.clock_out
    break_duration := entry_update.break_duration.getD entry.break_duration
    notes := match entry_update.notes with
      | some s => some s
      | none => entry.notes
    status := entry_update.status.getD entry.status
    total_hours := match hrs with
      | some p => some p.1
      | none => entry.total_hours
    overtime_hours := match hrs with
      | some p => p.2
      | none => entry.overtime_hours }

/-- Field application step of `update_time_entry` (hitl.py lines 255-281):
recompute hours where applicable, then apply all supplied fields. -/
def apply_time_entry_update (db : DB) (entry_id : Nat) (entry : TimeEntry)
    (entry_update : TimeEntryUpdate) : Except ApiError (DB × TimeEntry) :=
  match recompute_hours entry entry_update with
  | .error e => .error e
  | .ok hrs =>
    .ok ({ db with time_entries :=
            db.time_entries.map (fun t =>
              if t.id == entry_id then applied_entry entry entry_update hrs else t) },
         applied_entry entry entry_update hrs)

/-- Time-entry update handler (hitl.py lines 224-281). -/
def update_time_entry (db : DB) (current_user : User) (entry_id : Nat)
    (entry_update : TimeEntryUpdate) : Except ApiError (DB × TimeEntry) :=
  match db.time_entries.find? (fun t => t.id == entry_id) with
  | none => .error .notFound
  | some entry =>
    match update_entry_permission db current_user entry entry_update with
    | .error e => .error e
    | .ok _ => apply_time_entry_update db entry_id entry entry_update

/-- Creation payload for a payroll record (schemas.py lines 124-137); note
that it carries a `status` field defaulting to pending. -/
structure PayrollRecordCreate where
  employee_id : Nat
  pay_period_start : Int
  pay_period_end : Int
  gross_pay : ℚ
  tax_deductions : ℚ := 0
  other_deductions : ℚ := 0
  net_pay : ℚ
  hours_worked : ℚ := 0
  overtime_hours : ℚ := 0
  status : String := "pending"
deriving DecidableEq

/-- Admin creation of a payroll record (processing.py lines 57-96): verify
the employee, reject a duplicate (employee, period) record, insert the
payload verbatim; `processed_at` is never assigned, hence null. -/
def create_payroll_record (db : DB) (payroll_data : PayrollRecordCreate) :
    Except ApiError (DB × PayrollRecord) :=
  match db.employees.find? (fun e => e.id == payroll_data.employee_id) with
  | none => .error .notFound
  | some employee =>
    if db.payroll_records.any (fun r =>
        r.employee_id == payroll_data.employee_id &&
        r.pay_period_start == payroll_data.pay_period_start &&
        r.pay_period_end == payroll_data.pay_period_end) then
      .error .conflict
    else
      let record : PayrollRecord :=
        { id := 0
          employee_id := payroll_data.employee_id
          employee_user_id := employee.user_id
          pay_period_start := payroll_data.pay_period_start
          pay_period_end := payroll_data.pay_period_end
          gross_pay := payroll_data.gross_pay
          tax_deductions := payroll_data.tax_deductions
          other_deductions := payroll_data.other_deductions
          net_pay := payroll_data.net_pay
          hours_worked := payroll_data.hours_worked
          overtime_hours := payroll_data.overtime_hours
          status := payroll_data.status
          processed_at := none }
      .ok ({ db with payroll_records := db.payroll_records ++ [record] }, record)

/-- Partial-update payload for a payroll record (schemas.py lines 140-147). -/
structure PayrollRecordUpdate where
  gross_pay : Option ℚ := none
  tax_deductions : Option ℚ := none
  other_deductions : Option ℚ := none
  net_pay : Option ℚ := none
  hours_worked : Option ℚ := none
  overtime_hours : Option ℚ := none
  status : Option String := none
deriving DecidableEq

/-- Timestamp step of `update_payroll_record` (processing.py lines 182-184):
set `processed_at` to the current time exactly when the update supplies a
status of approved or paid. -/
def stamp_processed (payroll_update : PayrollRecordUpdate) (now : Int)
    (r1 : PayrollRecord) : PayrollRecord :=
  if payroll_update.status = some ("approved") ∨ payroll_update.status = some ("paid")
  then { r1 with processed_at := some now }
  else r1

/-- Admin update of a payroll record (processing.py lines 162-188): apply
the supplied fields, then the timestamp step.  The current time is the
explicit argument `now`. -/
def update_payroll_record (db : DB) (record_id : Nat)
    (payroll_update : PayrollRecordUpdate) (now : Int) :
    Except ApiError (DB × PayrollRecord) :=
  match db.payroll_records.find? (fun r => r.id == record_id) with
  | none => .error .notFound
  | some record =>
    let r1 : PayrollRecord :=
      { record with
        gross_pay := payroll_update.gross_pay.getD record.gross_pay
        tax_deductions := payroll_update.tax_deductions.getD record.tax_deductions
        other_deductions := payroll_update.other_deductions.getD record.other_deductions
        net_pay := payroll_update.net_pay.getD record.net_pay
        hours_worked := payroll_update.hours_worked.getD record.hours_worked
        overtime_hours := payroll_update.overtime_hours.getD record.overtime_hours
        status := payroll_update.status.getD record.status }
    let r2 : PayrollRecord := stamp_processed payroll_update now r1
    .ok ({ db with payroll_records :=
            db.payroll_records.map (fun r => if r.id == record_id then r2 else r) },
         r2)

/-- Existence check for a payroll record of an employee and period
(processing.py lines 234-241). -/
def hasRecordFor (records : List PayrollRecord) (employee_id : Nat)
    (start_date end_date : Int) : Bool :=
  records.any (fun r =>
    r.employee_id == employee_id && r.pay_period_start == start_date &&
    r.pay_period_end == end_date)

/-- Time-entry filter used when aggregating a pay period (processing.py
lines 246-254): same employee, `start_date <= date <= end_date` (both ends
inclusive), status approved. -/
def periodEntryFilter (employee : Employee) (start_date end_date : Int)
    (t : TimeEntry) : Bool :=
  t.employee_id == employee.id && decide (start_date ≤ t.date) &&
    decide (t.date ≤ end_date) && t.status == "approved"

/-- Payroll record inserted by period processing (processing.py lines
262-269): period bounds, calculator outputs, default pending status. -/
def periodRecord (employee : Employee) (start_date end_date : Int)
    (c : PayBreakdown) : PayrollRecord :=
  { id := 0
    employee_id := employee.id
    employee_user_id := employee.user_id
    pay_period_start := start_date
    pay_period_end := end_date
    gross_pay := c.gross_pay
    tax_deductions := c.tax_deductions
    other_deductions := c.other_deductions
    net_pay := c.net_pay
    hours_worked := c.hours_worked
    overtime_hours := c.overtime_hours
    status := "pending"
    processed_at := none }

/-- Loop body of `process_payroll_period` (processing.py lines 233-276) for
one employee: skip when a record for the period exists, otherwise aggregate
approved entry hours, run the calculator, and append the new record and its
breakdown. -/
def processStep (start_date end_date : Int) (time_entries : List TimeEntry)
    (acc : List PayrollRecord × List PayBreakdown) (employee : Employee) :
    List PayrollRecord × List PayBreakdown :=
  if hasRecordFor acc.1 employee.id start_date end_date then acc
  else
    let filtered := time_entries.filter (periodEntryFilter employee start_date end_date)
    let total_hours := (filtered.map (fun t => t.total_hours.getD 0)).sum
    let total_overtime := (filtered.map (fun t => t.overtime_hours)).sum
    let calculation := calculate_payroll employee total_hours total_overtime
    (acc.1 ++ [periodRecord employee start_date end_date calculation],
     acc.2 ++ [calculation])

/-- Period processing handler (processing.py lines 215-284): reject
`start_date >= end_date`, then fold the per-employee step over all active
employees, returning the updated store and the list of new breakdowns. -/
def process_payroll_period (db : DB) (start_date end_date : Int) :
    Except ApiError (DB × List PayBreakdown) :=
  if start_date ≥ end_date then .error .invalidRange
  else
    let result := (db.employees.filter (fun e => e.is_active)).foldl
      (processStep start_date end_date db.time_entries) (db.payroll_records, [])
    .ok ({ db with payroll_records := result.1 }, result.2)

/-- Projection of a time-entry handler result to the returned entry. -/
def resultEntry (r : Except ApiError (DB × TimeEntry)) : Option TimeEntry :=
  r.toOption.map (fun p => p.2)

/-- Projection of a payroll-record handler result to the returned record. -/
def resultRecord (r : Except ApiError (DB × PayrollRecord)) : Option PayrollRecord :=
  r.toOption.map (fun p => p.2)

/-- Projection of a period-processing result to the hours_worked of each
newly created breakdown. -/
def processedHours (r : Except ApiError (DB × List PayBreakdown)) : List ℚ :=
  match r with
  | .ok p => p.2.map (fun c => c.hours_worked)
  | .error _ => []

/-- Fixture: an employee profile owned by user 1. -/
def empOwner : Employee := { id := 5, user_id := 1, salary := 52000 }

/-- Fixture: a completed 10-hour entry of that employee with 2 overtime
hours on record. -/
def entryCompleted : TimeEntry :=
  { id := 9, employee_id := 5, date := 1, clock_in := 0, clock_out := some 36000,
    break_duration := 0, total_hours := some 10, overtime_hours := 2,
    status := "completed" }

/-- Fixture: a store holding that employee and entry. -/
def dbOwned : DB :=
  { employees := [empOwner], time_entries := [entryCompleted], payroll_records := [] }

theorem round2_mono {x y : ℚ} (h : x ≤ y) : round2 x ≤ round2 y := by
  unfold round2
  have : round (x * 100) ≤ round (y * 100) := by
    rw [round_eq, round_eq]
    exact Int.floor_le_floor (by linarith)
  have h100 : ((round (x * 100) : ℤ) : ℚ) ≤ ((round (y * 100) : ℤ) : ℚ) := by
    exact_mod_cast this
  linarith

theorem round2_zero : round2 0 = 0 := by
  unfold round2
  norm_num

theorem round2_nonneg {x : ℚ} (h : 0 ≤ x) : 0 ≤ round2 x := by
  have := round2_mono h
  rwa [round2_zero] at this

theorem round2_nonpos {x : ℚ} (h : x ≤ 0) : round2 x ≤ 0 := by
  have := round2_mono h
  rwa [round2_zero] at this

theorem round2_sub_intCast (x : ℚ) (n : ℤ) : round2 (x - (n : ℚ)) = round2 x - n := by
  unfold round2
  have hx : (x - (n : ℚ)) * 100 = x * 100 - ((n * 100 : ℤ) : ℚ) := by
    push_cast
    ring
  rw [hx, round_sub_int]
  push_cast
  ring

theorem round2_max_zero (x : ℚ) : round2 (max 0 x) = max 0 (round2 x) := by
  rcases le_total x 0 with h | h
  · rw [max_eq_left h, round2_zero, max_eq_left (round2_nonpos h)]
  · rw [max_eq_right h, max_eq_right (round2_nonneg h)]

theorem abs_round2_sub (x : ℚ) : |round2 x - x| ≤ 1 / 200 := by
  unfold round2
  have h := abs_sub_round (x * 100)
  rw [abs_sub_comm] at h
  have hrw : ((round (x * 100) : ℤ) : ℚ) / 100 - x = ((round (x * 100) : ℤ) - x * 100) / 100 := by
    ring
  rw [hrw, abs_div]
  rw [show |(100 : ℚ)| = 100 by norm_num]
  rw [div_le_div_iff₀ (by norm_num) (by norm_num)]
  linarith

/-- Claim C3: for clockOut > clockIn, the hours computation returns
totalHours = round(((clockOut − clockIn) in minutes − breakMinutes)/60, 2)
and overtimeHours = max(0, totalHours − 8.0), where the overtime is measured
against the 8-hour threshold on the rounded total. -/
theorem calculate_hours_formula (ci co b : Int) (h : ci < co) :
    calculate_hours ci co b =
      .ok (round2 ((((co : ℚ) - (ci : ℚ)) / 60 - (b : ℚ)) / 60),
           max 0 (round2 ((((co : ℚ) - (ci : ℚ)) / 60 - (b : ℚ)) / 60) - 8)) := by
  have h8 : round2 ((((co : ℚ) - (ci : ℚ)) / 60 - (b : ℚ)) / 60 - 8) =
      round2 ((((co : ℚ) - (ci : ℚ)) / 60 - (b : ℚ)) / 60) - 8 := by
    have hc := round2_sub_intCast ((((co : ℚ) - (ci : ℚ)) / 60 - (b : ℚ)) / 60) 8
    push_cast at hc
    exact hc
  unfold calculate_hours
  rw [if_neg (not_le.mpr h)]
  show Except.ok (round2 ((((co : ℚ) - (ci : ℚ)) / 60 - (b : ℚ)) / 60),
        round2 (max 0 ((((co : ℚ) - (ci : ℚ)) / 60 - (b : ℚ)) / 60 - 8))) = _
  rw [round2_max_zero, h8]

/-- Claim C3 witness: a 10-hour shift with a 30 minute break gives 9.5 total
hours and 1.5 overtime hours. -/
theorem calculate_hours_formula_witness :
    (0 : Int) < 36000 ∧ calculate_hours 0 36000 30 = .ok (19 / 2, 3 / 2) := by
  refine ⟨by decide, (calculate_hours_formula 0 36000 30 (by decide)).trans ?_⟩
  push_cast
  norm_num [round2, round_eq]

/-- Claim C2 (amended): netPay is the 2-decimal rounding of the identity
computed on the unrounded values, i.e. round2 of (gross − 25% − 5%) =
round2 of 0.7·gross; the identity between the four rounded outputs holds
only up to the accumulated rounding error, bounded by 0.02. -/
theorem calculate_payroll_net_pay (employee : Employee)
    (hours_worked overtime_hours : ℚ) :
    (calculate_payroll employee hours_worked overtime_hours).net_pay =
      round2 (gross_raw employee hours_worked overtime_hours * (7 / 10)) ∧
    |(calculate_payroll employee hours_worked overtime_hours).net_pay -
        ((calculate_payroll employee hours_worked overtime_hours).gross_pay -
          (calculate_payroll employee hours_worked overtime_hours).tax_deductions -
          (calculate_payroll employee hours_worked overtime_hours).other_deductions)| ≤
      1 / 50 := by
  constructor
  · show round2 (gross_raw employee hours_worked overtime_hours -
        gross_raw employee hours_worked overtime_hours * (1 / 4) -
        gross_raw employee hours_worked overtime_hours * (1 / 20)) = _
    congr 1
    ring
  · show |round2 (gross_raw employee hours_worked overtime_hours -
        gross_raw employee hours_worked overtime_hours * (1 / 4) -
        gross_raw employee hours_worked overtime_hours * (1 / 20)) -
        (round2 (gross_raw employee hours_worked overtime_hours) -
          round2 (gross_raw employee hours_worked overtime_hours * (1 / 4)) -
          round2 (gross_raw employee hours_worked overtime_hours * (1 / 20)))| ≤ 1 / 50
    have h1 := abs_round2_sub (gross_raw employee hours_worked overtime_hours)
    have h2 := abs_round2_sub (gross_raw employee hours_worked overtime_hours * (1 / 4))
    have h3 := abs_round2_sub (gross_raw employee hours_worked overtime_hours * (1 / 20))
    have h4 := abs_round2_sub (gross_raw employee hours_worked overtime_hours -
      gross_raw employee hours_worked overtime_hours * (1 / 4) -
      gross_raw employee hours_worked overtime_hours * (1 / 20))
    rw [abs_le] at h1 h2 h3 h4 ⊢
    constructor
    · linarith [h1.1, h1.2, h2.1, h2.2, h3.1, h3.2, h4.1, h4.2]
    · linarith [h1.1, h1.2, h2.1, h2.2, h3.1, h3.2, h4.1, h4.2]

/-- Claim C2 counterexample: for a salaried employee with annual salary 5.2
(weekly gross 0.10) and zero hours, the rounded outputs are gross 0.10,
tax 0.03, other 0.01, net 0.07, and 0.07 is not 0.10 − 0.03 − 0.01: the
identity between the rounded outputs fails because rounding happens at the
output, not at each point of computation. -/
theorem calculate_payroll_identity_cex :
    (calculate_payroll { id := 1, user_id := 1, salary := 26 / 5 } 0 0).net_pay ≠
      (calculate_payroll { id := 1, user_id := 1, salary := 26 / 5 } 0 0).gross_pay -
        (calculate_payroll { id := 1, user_id := 1, salary := 26 / 5 } 0 0).tax_deductions -
        (calculate_payroll { id := 1, user_id := 1, salary := 26 / 5 } 0 0).other_deductions := by
  have hg : gross_raw { id := 1, user_id := 1, salary := 26 / 5 } 0 0 = 1 / 10 := by
    norm_num [gross_raw, overtimeEff, salaried_gross, pyTruthy]
  show round2 (gross_raw { id := 1, user_id := 1, salary := 26 / 5 } 0 0 -
      gross_raw { id := 1, user_id := 1, salary := 26 / 5 } 0 0 * (1 / 4) -
      gross_raw { id := 1, user_id := 1, salary := 26 / 5 } 0 0 * (1 / 20)) ≠
    round2 (gross_raw { id := 1, user_id := 1, salary := 26 / 5 } 0 0) -
      round2 (gross_raw { id := 1, user_id := 1, salary := 26 / 5 } 0 0 * (1 / 4)) -
      round2 (gross_raw { id := 1, user_id := 1, salary := 26 / 5 } 0 0 * (1 / 20))
  rw [hg]
  norm_num [round2, round_eq]

/-- Claim C8 counterexample: the EmploymentType enum of the employee schemas
has only full_time, part_time and contract, so an employee-creation payload
with employment_type hourly is rejected by validation — there is no valid
input the claim asks for. -/
theorem employment_type_hourly_rejected : parseEmploymentType ("hourly") = none := by
  rfl

/-- Claim C8 (amended): the employee schema admits only full_time, part_time
and contract; employment_type hourly is rejected, and for every employee
with an accepted employment_type the payroll calculator takes the salaried
branch. -/
theorem employment_type_salaried_branch (employee : Employee) (h o : ℚ)
    (hmem : employee.employment_type ∈ employmentTypeValues) :
    parseEmploymentType ("hourly") = none ∧
    gross_raw employee h o = salaried_gross employee.salary (overtimeEff h o) := by
  refine ⟨rfl, ?_⟩
  have hne : employee.employment_type ≠ "hourly" := by
    simp only [employmentTypeValues, List.mem_cons, List.not_mem_nil, or_false] at hmem
    rcases hmem with h1 | h1 | h1 <;> simp [h1]
  have hbeq : (employee.employment_type == "hourly") = false :=
    beq_eq_false_iff_ne.mpr hne
  unfold gross_raw
  rw [hbeq]
  simp

/-- Claim C8 witness: a full-time employee has an accepted employment type
and gets the salaried gross. -/
theorem employment_type_salaried_branch_witness :
    ({ id := 1, user_id := 1, salary := 52000 } : Employee).employment_type ∈
        employmentTypeValues ∧
      (parseEmploymentType ("hourly") = none ∧
        gross_raw { id := 1, user_id := 1, salary := 52000 } 40 0 =
          salaried_gross ({ id := 1, user_id := 1, salary := 52000 } : Employee).salary
            (overtimeEff 40 0)) := by
  refine ⟨by simp [employmentTypeValues], ?_⟩
  exact employment_type_salaried_branch { id := 1, user_id := 1, salary := 52000 } 40 0
    (by simp [employmentTypeValues])

/-- Claim C1 (code bug): when the acting user has an employee profile and an
active entry already exists for the (employee, date), clock-in does fail
with the conflict error; but in the otherwise case, instead of persisting a
new active TimeEntry, the handler evaluates
TimeEntry(**time_entry.dict(), employee_id=employee.id), which passes the
keyword employee_id twice (TimeEntryCreate declares it) and so raises
TypeError for every such request. -/
theorem clock_in_always_type_error :
    clock_in { employees := [{ id := 7, user_id := 1, salary := 52000 }],
               time_entries := [], payroll_records := [] }
        { id := 1 } { employee_id := 7, date := 20, clock_in := 0 } =
      .error .typeError ∧
    clock_in { employees := [{ id := 7, user_id := 1, salary := 52000 }],
               time_entries := [{ id := 3, employee_id := 7, date := 20, clock_in := 0 }],
               payroll_records := [] }
        { id := 1 } { employee_id := 7, date := 20, clock_in := 0 } =
      .error .conflict := by
  constructor
  · rfl
  · rfl

/-- Claim C4 counterexample: an admin principal who owns time entry 9 updates
it to status approved and the handler returns the approved entry instead of
failing with ForbiddenError — the self-approval check sits inside the
non-admin branch, so admin flags do bypass it. -/
theorem admin_self_approval_succeeds_cex :
    update_time_entry dbOwned { id := 1, is_admin := true } 9
        { status := some ("approved") } ≠ Except.error ApiError.forbidden ∧
    (resultEntry (update_time_entry dbOwned { id := 1, is_admin := true } 9
        { status := some ("approved") })).map (fun e => e.status) =
      some ("approved") := by
  have hEval : update_time_entry dbOwned { id := 1, is_admin := true } 9
      { status := some ("approved") } =
      Except.ok
        ({ employees := [empOwner],
           time_entries := [{ id := 9, employee_id := 5, date := 1, clock_in := 0,
                              clock_out := some 36000, break_duration := 0,
                              total_hours := some 10, overtime_hours := 2,
                              status := "approved" }],
           payroll_records := [] },
         { id := 9, employee_id := 5, date := 1, clock_in := 0,
           clock_out := some 36000, break_duration := 0, total_hours := some 10,
           overtime_hours := 2, status := "approved" }) := rfl
  rw [hEval]
  exact ⟨fun h => Except.noConfusion h, rfl⟩

/-- Claim C4 (amended): a non-admin principal updating their own time entry
to status approved always fails with ForbiddenError; admin principals bypass
the self-approval check. -/
theorem non_admin_self_approval_forbidden (db : DB) (current_user : User)
    (entry_id : Nat) (entry_update : TimeEntryUpdate) (entry : TimeEntry)
    (employee : Employee)
    (hadmin : current_user.is_admin = false)
    (hfind : db.time_entries.find? (fun t => t.id == entry_id) = some entry)
    (hemp : db.employees.find? (fun e => e.user_id == current_user.id) = some employee)
    (hown : entry.employee_id = employee.id)
    (happrove : entry_update.status = some ("approved")) :
    update_time_entry db current_user entry_id entry_update =
      Except.error ApiError.forbidden := by
  unfold update_time_entry
  rw [hfind]
  unfold update_entry_permission
  rw [hadmin, hemp]
  simp [hown, happrove]

/-- Claim C4 witness: the non-admin owner of entry 9 cannot set it to
approved. -/
theorem non_admin_self_approval_forbidden_witness :
    update_time_entry dbOwned { id := 1 } 9 { status := some ("approved") } =
      Except.error ApiError.forbidden :=
  non_admin_self_approval_forbidden dbOwned { id := 1 } 9
    { status := some ("approved") } entryCompleted empOwner rfl rfl rfl rfl rfl

/-- Claim C6 counterexample: an admin creates a payroll record whose payload
carries status approved; the created record is persisted with status
approved and a null processed_at, so a record can be in {approved, paid}
without processed_at ever being set. -/
theorem create_approved_without_processed_at_cex :
    (resultRecord (create_payroll_record
        { employees := [{ id := 1, user_id := 2, salary := 52000 }],
          time_entries := [], payroll_records := [] }
        { employee_id := 1, pay_period_start := 0, pay_period_end := 7,
          gross_pay := 1000, net_pay := 700, status := "approved" })).map
      (fun r => (r.status, r.processed_at)) =
      some ("approved", (none : Option Int)) := by
  rfl

theorem processStep_mem (s en : Int) (tes : List TimeEntry)
    (acc : List PayrollRecord × List PayBreakdown) (emp : Employee)
    (r : PayrollRecord) (hr : r ∈ (processStep s en tes acc emp).1) :
    r ∈ acc.1 ∨ (r.status = "pending" ∧ r.processed_at = none) := by
  unfold processStep at hr
  split at hr
  · exact Or.inl hr
  · rcases List.mem_append.mp hr with h | h
    · exact Or.inl h
    · right
      simp only [List.mem_singleton] at h
      subst h
      exact ⟨rfl, rfl⟩

theorem process_foldl_mem (s en : Int) (tes : List TimeEntry)
    (l : List Employee) (acc : List PayrollRecord × List PayBreakdown)
    (r : PayrollRecord) (hr : r ∈ (l.foldl (processStep s en tes) acc).1) :
    r ∈ acc.1 ∨ (r.status = "pending" ∧ r.processed_at = none) := by
  induction l generalizing acc with
  | nil => exact Or.inl hr
  | cons hd tl ih =>
    rw [List.foldl_cons] at hr
    rcases ih _ hr with h1 | h1
    · exact processStep_mem s en tes acc hd r h1
    · exact Or.inr h1

/-- Claim C6 (amended): an admin update that supplies status approved or
paid sets processed_at to the current time at that moment, and period
processing creates new records only with status pending and null
processed_at; but explicit admin creation inserts its payload verbatim and
never sets processed_at, so a record created with status approved or paid
in the payload is in {approved, paid} with processed_at null. -/
theorem processed_at_by_operation :
    (∀ (db : DB) (payload : PayrollRecordCreate) (db2 : DB) (r : PayrollRecord),
        create_payroll_record db payload = Except.ok (db2, r) →
        r.processed_at = none) ∧
    (∀ (db : DB) (record_id : Nat) (upd : PayrollRecordUpdate) (now : Int)
        (db2 : DB) (r : PayrollRecord),
        update_payroll_record db record_id upd now = Except.ok (db2, r) →
        upd.status = some ("approved") ∨ upd.status = some ("paid") →
        r.processed_at = some now) ∧
    (∀ (db : DB) (s en : Int) (db1 : DB) (out1 : List PayBreakdown),
        process_payroll_period db s en = Except.ok (db1, out1) →
        ∀ r ∈ db1.payroll_records,
          r ∈ db.payroll_records ∨
            (r.status = "pending" ∧ r.processed_at = none)) := by
  refine ⟨?_, ?_, ?_⟩
  · intro db payload db2 r h
    unfold create_payroll_record at h
    split at h
    · exact absurd h (by simp)
    · split at h
      · exact absurd h (by simp)
      · obtain ⟨-, hr⟩ : _ ∧ _ = r := by simpa using h
        rw [← hr]
  · intro db record_id upd now db2 r h hst
    unfold update_payroll_record at h
    split at h
    · exact absurd h (by simp)
    · obtain ⟨-, hr⟩ : _ ∧ _ = r := by simpa using h
      rw [← hr]
      unfold stamp_processed
      rw [if_pos hst]
  · intro db s en db1 out1 h r hr
    unfold process_payroll_period at h
    split at h
    · exact absurd h (by simp)
    · obtain ⟨hdb, -⟩ : _ = db1 ∧ _ = out1 := by simpa using h
      subst hdb
      exact process_foldl_mem s en db.time_entries
        (db.employees.filter (fun e => e.is_active)) (db.payroll_records, []) r hr

/-- Claim C6 witness: a record created with status approved has null
processed_at; an update supplying approved at time 99 stamps processed_at
99; and the record created by period processing for the store with one
employee and no prior records is pending with null processed_at. -/
theorem processed_at_by_operation_witness :
    ({ id := 0, employee_id := 1, employee_user_id := 2, pay_period_start := 0,
       pay_period_end := 7, gross_pay := 1000, net_pay := 700,
       status := "approved" } : PayrollRecord).processed_at = none ∧
    ({ id := 3, employee_id := 1, employee_user_id := 2, pay_period_start := 0,
       pay_period_end := 7, gross_pay := 1000, net_pay := 700,
       status := "approved", processed_at := some 99 } : PayrollRecord).processed_at =
      some 99 ∧
    (periodRecord empOwner 0 7 (calculate_payroll empOwner 0 0) ∈
        ([] : List PayrollRecord) ∨
      ((periodRecord empOwner 0 7 (calculate_payroll empOwner 0 0)).status = "pending" ∧
        (periodRecord empOwner 0 7 (calculate_payroll empOwner 0 0)).processed_at =
          none)) := by
  refine ⟨?_, ?_, ?_⟩
  · exact processed_at_by_operation.1
      { employees := [{ id := 1, user_id := 2, salary := 52000 }],
        time_entries := [], payroll_records := [] }
      { employee_id := 1, pay_period_start := 0, pay_period_end := 7,
        gross_pay := 1000, net_pay := 700, status := "approved" }
      _ _ rfl
  · exact processed_at_by_operation.2.1
      { employees := [], time_entries := [],
        payroll_records := [{ id := 3, employee_id := 1, employee_user_id := 2,
                              pay_period_start := 0, pay_period_end := 7,
                              gross_pay := 1000, net_pay := 700,
                              status := "pending" }] }
      3 { status := some ("approved") } 99 _ _ rfl (Or.inl rfl)
  · exact processed_at_by_operation.2.2
      { employees := [empOwner], time_entries := [], payroll_records := [] } 0 7
      { employees := [empOwner], time_entries := [],
        payroll_records := [periodRecord empOwner 0 7 (calculate_payroll empOwner 0 0)] }
      [calculate_payroll empOwner 0 0] rfl
      (periodRecord empOwner 0 7 (calculate_payroll empOwner 0 0)) (by simp)

/-- Claim C7 counterexample: the non-admin owner clears clock_out on the
completed entry 9 (an update touching clock_out); the update succeeds, the
resulting entry has no clock_out, yet total_hours is still the old 10 and
overtime_hours the old 2 — the derived fields are left stale rather than
recomputed or nulled. -/
theorem clearing_clock_out_keeps_stale_hours_cex :
    (resultEntry (update_time_entry dbOwned { id := 1 } 9
        { clock_out := some none })).map (fun e => e.clock_out) = some none ∧
    (resultEntry (update_time_entry dbOwned { id := 1 } 9
        { clock_out := some none })).map (fun e => (e.total_hours, e.overtime_hours)) =
      some ((some 10 : Option ℚ), (2 : ℚ)) := by
  exact ⟨rfl, rfl⟩

/-- Claim C7 (amended): when an update touching clock_out or break_duration
succeeds, then if the resulting clock_out is non-null the stored
total_hours and overtime_hours are exactly the output of the hours formula
on the entry's resulting clock_in, clock_out and break_duration; but if the
update cleared clock_out, the previous total_hours and overtime_hours are
left unchanged (stale) rather than recomputed or nulled. -/
theorem update_recompute_hours_spec (db : DB) (current_user : User)
    (entry_id : Nat) (entry_update : TimeEntryUpdate) (db2 : DB)
    (entry2 entry : TimeEntry)
    (hok : update_time_entry db current_user entry_id entry_update =
      Except.ok (db2, entry2))
    (hfind : db.time_entries.find? (fun t => t.id == entry_id) = some entry)
    (htouched : (entry_update.clock_out.isSome ||
      entry_update.break_duration.isSome) = true) :
    (∀ co, entry2.clock_out = some co →
      calculate_hours entry2.clock_in co entry2.break_duration =
        Except.ok (entry2.total_hours.getD 0, entry2.overtime_hours) ∧
      entry2.total_hours.isSome = true) ∧
    (entry2.clock_out = none →
      entry2.total_hours = entry.total_hours ∧
      entry2.overtime_hours = entry.overtime_hours ∧
      entry2.clock_in = entry.clock_in) := by
  unfold update_time_entry at hok
  rw [hfind] at hok
  dsimp only at hok
  cases hperm : update_entry_permission db current_user entry entry_update with
  | error e =>
    rw [hperm] at hok
    exact absurd hok (by simp)
  | ok u =>
    rw [hperm] at hok
    unfold apply_time_entry_update at hok
    cases hrec : recompute_hours entry entry_update with
    | error e =>
      rw [hrec] at hok
      exact absurd hok (by simp)
    | ok hrs =>
      rw [hrec] at hok
      obtain ⟨-, he⟩ : _ ∧ applied_entry entry entry_update hrs = entry2 := by
        simpa using hok
      subst he
      unfold recompute_hours at hrec
      rw [if_pos htouched] at hrec
      cases hco : entry_update.clock_out.getD entry.clock_out with
      | none =>
        rw [hco] at hrec
        obtain rfl : hrs = none := (Except.ok.inj hrec).symm
        constructor
        · intro co hc
          simp only [applied_entry, hco] at hc
          exact Option.noConfusion hc
        · intro hnone
          exact ⟨rfl, rfl, rfl⟩
      | some co =>
        rw [hco] at hrec
        dsimp only at hrec
        cases hcalc : calculate_hours entry.clock_in co
            (entry_update.break_duration.getD entry.break_duration) with
        | error e =>
          rw [hcalc] at hrec
          exact absurd hrec (by simp)
        | ok hs =>
          rw [hcalc] at hrec
          obtain rfl : hrs = some hs := (Except.ok.inj hrec).symm
          constructor
          · intro co2 hc2
            simp only [applied_entry, hco, Option.some.injEq] at hc2
            subst hc2
            constructor
            · show calculate_hours entry.clock_in co
                  (entry_update.break_duration.getD entry.break_duration) =
                Except.ok ((some hs.1).getD 0, hs.2)
              rw [hcalc]
              rfl
            · rfl
          · intro hnone
            simp only [applied_entry, hco] at hnone
            exact Option.noConfusion hnone

/-- Claim C7 witness: clearing clock_out on entry 9 succeeds and leaves the
old total_hours, overtime_hours and clock_in in place. -/
theorem update_recompute_hours_spec_witness :
    ({ id := 9, employee_id := 5, date := 1, clock_in := 0, clock_out := none,
       break_duration := 0, total_hours := some 10, overtime_hours := 2,
       status := "completed" } : TimeEntry).total_hours = entryCompleted.total_hours ∧
    ({ id := 9, employee_id := 5, date := 1, clock_in := 0, clock_out := none,
       break_duration := 0, total_hours := some 10, overtime_hours := 2,
       status := "completed" } : TimeEntry).overtime_hours = entryCompleted.overtime_hours ∧
    ({ id := 9, employee_id := 5, date := 1, clock_in := 0, clock_out := none,
       break_duration := 0, total_hours := some 10, overtime_hours := 2,
       status := "completed" } : TimeEntry).clock_in = entryCompleted.clock_in :=
  (update_recompute_hours_spec dbOwned { id := 1 } 9 { clock_out := some none }
    { employees := [empOwner],
      time_entries := [{ id := 9, employee_id := 5, date := 1, clock_in := 0,
                         clock_out := none, break_duration := 0,
                         total_hours := some 10, overtime_hours := 2,
                         status := "completed" }],
      payroll_records := [] }
    { id := 9, employee_id := 5, date := 1, clock_in := 0, clock_out := none,
      break_duration := 0, total_hours := some 10, overtime_hours := 2,
      status := "completed" }
    entryCompleted rfl rfl rfl).2 rfl

theorem hasRecordFor_append (recs l : List PayrollRecord) (eid : Nat)
    (s en : Int) (h : hasRecordFor recs eid s en = true) :
    hasRecordFor (recs ++ l) eid s en = true := by
  unfold hasRecordFor at h ⊢
  rw [List.any_append, h, Bool.true_or]

theorem processStep_preserves (s en : Int) (tes : List TimeEntry)
    (acc : List PayrollRecord × List PayBreakdown) (emp : Employee) (eid : Nat)
    (h : hasRecordFor acc.1 eid s en = true) :
    hasRecordFor (processStep s en tes acc emp).1 eid s en = true := by
  unfold processStep
  split
  · exact h
  · exact hasRecordFor_append acc.1 _ eid s en h

theorem processStep_self (s en : Int) (tes : List TimeEntry)
    (acc : List PayrollRecord × List PayBreakdown) (emp : Employee) :
    hasRecordFor (processStep s en tes acc emp).1 emp.id s en = true := by
  unfold processStep
  split
  case isTrue h => exact h
  case isFalse h => simp [hasRecordFor, List.any_append, periodRecord]

theorem process_foldl_preserves (s en : Int) (tes : List TimeEntry)
    (l : List Employee) (acc : List PayrollRecord × List PayBreakdown) (eid : Nat)
    (h : hasRecordFor acc.1 eid s en = true) :
    hasRecordFor (l.foldl (processStep s en tes) acc).1 eid s en = true := by
  induction l generalizing acc with
  | nil => exact h
  | cons hd tl ih =>
    rw [List.foldl_cons]
    exact ih _ (processStep_preserves s en tes acc hd eid h)

theorem process_foldl_has (s en : Int) (tes : List TimeEntry)
    (l : List Employee) (acc : List PayrollRecord × List PayBreakdown)
    (emp : Employee) (hmem : emp ∈ l) :
    hasRecordFor (l.foldl (processStep s en tes) acc).1 emp.id s en = true := by
  induction l generalizing acc with
  | nil => cases hmem
  | cons hd tl ih =>
    rw [List.foldl_cons]
    rcases List.mem_cons.mp hmem with h1 | h1
    · subst h1
      exact process_foldl_preserves s en tes tl _ emp.id
        (processStep_self s en tes acc emp)
    · exact ih _ h1

theorem processStep_noop (s en : Int) (tes : List TimeEntry)
    (acc : List PayrollRecord × List PayBreakdown) (emp : Employee)
    (h : hasRecordFor acc.1 emp.id s en = true) :
    processStep s en tes acc emp = acc := by
  unfold processStep
  rw [if_pos h]

theorem process_foldl_noop (s en : Int) (tes : List TimeEntry)
    (l : List Employee) (acc : List PayrollRecord × List PayBreakdown)
    (h : ∀ emp ∈ l, hasRecordFor acc.1 emp.id s en = true) :
    l.foldl (processStep s en tes) acc = acc := by
  induction l with
  | nil => rfl
  | cons hd tl ih =>
    rw [List.foldl_cons, processStep_noop s en tes acc hd (h hd (List.mem_cons_self hd tl))]
    exact ih (fun e he => h e (List.mem_cons_of_mem hd he))

/-- Claim C5: period processing is idempotent — if a first call succeeds,
running it again on the resulting store with the same period creates zero
new breakdowns and returns the store unchanged (in particular every record
created by the first call is untouched). -/
theorem process_payroll_period_idempotent (db : DB) (s en : Int) (db1 : DB)
    (out1 : List PayBreakdown)
    (h : process_payroll_period db s en = Except.ok (db1, out1)) :
    process_payroll_period db1 s en = Except.ok (db1, []) := by
  unfold process_payroll_period at h ⊢
  split at h
  · exact absurd h (by simp)
  case isFalse hge =>
    rw [if_neg hge]
    obtain ⟨hdb, -⟩ : _ = db1 ∧ _ = out1 := by simpa using h
    subst hdb
    have hall : ∀ emp ∈ db.employees.filter (fun e => e.is_active),
        hasRecordFor ((db.employees.filter (fun e => e.is_active)).foldl
          (processStep s en db.time_entries) (db.payroll_records, [])).1
          emp.id s en = true :=
      fun emp hmem =>
        process_foldl_has s en db.time_entries
          (db.employees.filter (fun e => e.is_active))
          (db.payroll_records, []) emp hmem
    have hnoop := process_foldl_noop s en db.time_entries
      (db.employees.filter (fun e => e.is_active))
      (((db.employees.filter (fun e => e.is_active)).foldl
          (processStep s en db.time_entries) (db.payroll_records, [])).1, [])
      (fun emp hmem => hall emp hmem)
    simp only [hnoop]

/-- Claim C5 witness: after processing the one-employee store for period
[0, 7), processing it again returns the same store and no new breakdowns. -/
theorem process_payroll_period_idempotent_witness :
    process_payroll_period
        { employees := [empOwner], time_entries := [],
          payroll_records := [periodRecord empOwner 0 7 (calculate_payroll empOwner 0 0)] }
        0 7 =
      Except.ok
        ({ employees := [empOwner], time_entries := [],
           payroll_records := [periodRecord empOwner 0 7 (calculate_payroll empOwner 0 0)] },
         []) :=
  process_payroll_period_idempotent
    { employees := [empOwner], time_entries := [], payroll_records := [] } 0 7
    { employees := [empOwner], time_entries := [],
      payroll_records := [periodRecord empOwner 0 7 (calculate_payroll empOwner 0 0)] }
    [calculate_payroll empOwner 0 0] rfl

/-- Claim C9 counterexample: an approved 9-hour entry dated exactly on
end_date (period [2, 5], entry date 5) is aggregated: the one new breakdown
has hours_worked 9, not 0 — the date filter is `start <= date <= end`, both
ends inclusive, not the half-open range of the claim. -/
theorem period_end_entry_counts_cex :
    processedHours (process_payroll_period
        { employees := [{ id := 1, user_id := 1, salary := 0 }],
          time_entries := [{ id := 1, employee_id := 1, date := 5, clock_in := 0,
                             total_hours := some 9, overtime_hours := 1,
                             status := "approved" }],
          payroll_records := [] } 2 5) = [9] ∧ (9 : ℚ) ≠ 0 := by
  constructor
  · norm_num [processedHours, process_payroll_period, processStep, hasRecordFor,
      periodEntryFilter, calculate_payroll]
  · norm_num

/-- Claim C9 (amended): period processing aggregates approved entries over
the closed date range [start, end]; in particular an active employee whose
only entry is approved and dated exactly end_date gets a record whose
hours_worked is that entry's total_hours (not zero). -/
theorem period_end_date_inclusive (emp : Employee) (entry : TimeEntry)
    (s en : Int) (recs : List PayrollRecord)
    (hlt : s < en) (hact : emp.is_active = true)
    (hemp : entry.employee_id = emp.id) (hst : entry.status = "approved")
    (hdate : entry.date = en)
    (hno : hasRecordFor recs emp.id s en = false) :
    process_payroll_period
        { employees := [emp], time_entries := [entry], payroll_records := recs }
        s en =
      Except.ok
        ({ employees := [emp], time_entries := [entry],
           payroll_records := recs ++ [periodRecord emp s en
             (calculate_payroll emp (entry.total_hours.getD 0) entry.overtime_hours)] },
         [calculate_payroll emp (entry.total_hours.getD 0) entry.overtime_hours]) ∧
    (calculate_payroll emp (entry.total_hours.getD 0) entry.overtime_hours).hours_worked =
      entry.total_hours.getD 0 := by
  refine ⟨?_, rfl⟩
  have hpf : periodEntryFilter emp s en entry = true := by
    unfold periodEntryFilter
    rw [hemp, hst, hdate]
    simp [le_of_lt hlt]
  unfold process_payroll_period
  rw [if_neg (not_le.mpr hlt)]
  simp only [List.filter_cons, hact, if_true, List.filter_nil, List.foldl_cons,
    List.foldl_nil, processStep, hno, Bool.false_eq_true, if_false, hpf,
    List.map_cons, List.map_nil, List.sum_cons, List.sum_nil, add_zero,
    List.nil_append]

/-- Claim C9 witness: an approved 8-hour entry dated exactly on the end of
period [0, 7] is counted as 8 hours worked. -/
theorem period_end_date_inclusive_witness :
    (calculate_payroll empOwner ((some (8 : ℚ)).getD 0) 0).hours_worked =
      (some (8 : ℚ)).getD 0 :=
  (period_end_date_inclusive empOwner
    { id := 2, employee_id := 5, date := 7, clock_in := 0, total_hours := some 8,
      overtime_hours := 0, status := "approved" }
    0 7 [] (by decide) rfl rfl rfl rfl rfl).2

/-- Claim C10: an active non-hourly employee with no approved time entries
in the period is not skipped: period processing still creates a record for
them, with gross_pay = round(salary/52, 2) (a full week of salary),
hours_worked 0 and overtime_hours 0. -/
theorem salaried_employee_paid_without_entries (emp : Employee) (s en : Int)
    (entries : List TimeEntry) (recs : List PayrollRecord)
    (hlt : s < en) (hact : emp.is_active = true)
    (hne : emp.employment_type ≠ "hourly")
    (hno : hasRecordFor recs emp.id s en = false)
    (hent : ∀ t ∈ entries, periodEntryFilter emp s en t = false) :
    process_payroll_period
        { employees := [emp], time_entries := entries, payroll_records := recs }
        s en =
      Except.ok
        ({ employees := [emp], time_entries := entries,
           payroll_records := recs ++ [periodRecord emp s en (calculate_payroll emp 0 0)] },
         [calculate_payroll emp 0 0]) ∧
    (calculate_payroll emp 0 0).gross_pay = round2 (emp.salary / 52) ∧
    (calculate_payroll emp 0 0).hours_worked = 0 ∧
    (calculate_payroll emp 0 0).overtime_hours = 0 := by
  have hfil : entries.filter (periodEntryFilter emp s en) = [] :=
    List.filter_eq_nil_iff.mpr (fun t ht => by rw [hent t ht]; exact Bool.false_ne_true)
  have hoeff : overtimeEff 0 0 = 0 := by
    unfold overtimeEff
    rw [if_pos rfl]
    norm_num
  have hgr : gross_raw emp 0 0 = emp.salary / 52 := by
    unfold gross_raw
    simp only [beq_eq_false_iff_ne.mpr hne, Bool.false_and, Bool.false_eq_true,
      if_false, hoeff, salaried_gross]
    rw [if_neg (lt_irrefl 0)]
  refine ⟨?_, ?_, rfl, hoeff⟩
  · unfold process_payroll_period
    rw [if_neg (not_le.mpr hlt)]
    simp only [List.filter_cons, hact, if_true, List.filter_nil, List.foldl_cons,
      List.foldl_nil, processStep, hno, Bool.false_eq_true, if_false, hfil,
      List.map_nil, List.sum_nil, List.nil_append]
  · show round2 (gross_raw emp 0 0) = round2 (emp.salary / 52)
    rw [hgr]

/-- Claim C10 witness: the active full-time employee with salary 52000 and
no entries gets gross 2-decimal-rounded 52000/52 with zero hours. -/
theorem salaried_employee_paid_without_entries_witness :
    (calculate_payroll empOwner 0 0).gross_pay = round2 (empOwner.salary / 52) ∧
    (calculate_payroll empOwner 0 0).hours_worked = 0 ∧
    (calculate_payroll empOwner 0 0).overtime_hours = 0 :=
  (salaried_employee_paid_without_entries empOwner 0 7 [] [] (by decide) rfl
    (by decide) rfl (fun t ht => absurd ht (List.not_mem_nil t))).2
